import Mathlib

/-!
Shallow embedding of the POSIX serial-port backend (`src/posix/tty.rs` of
serialport-rs) together with the crate-level data model (`src/lib.rs`).
The embedding targets the Linux configuration of the code (the `cfg(target_os
= "linux")` branches), with the Linux values of the termios constants.
Syscall outcomes are passed in explicitly as oracle values, and the
side-effecting calls that the claims talk about (`close`, `TIOCNXCL`,
device-open attempts during enumeration) are recorded in explicit traces.
-/

namespace SerialPort

/-! ## Termios constants (Linux values, as used through the `termios` crate) -/

def CREAD : Nat := 0x80
def CLOCAL : Nat := 0x800
def CSIZE : Nat := 0x30
def CS5 : Nat := 0x00
def CS6 : Nat := 0x10
def CS7 : Nat := 0x20
def CS8 : Nat := 0x30
def CSTOPB : Nat := 0x40
def PARENB : Nat := 0x100
def PARODD : Nat := 0x200
def INPCK : Nat := 0x10
def IGNPAR : Nat := 0x4
def IXON : Nat := 0x400
def IXOFF : Nat := 0x1000
def CRTSCTS : Nat := 0x80000000
def IGNBRK : Nat := 0x1
def BRKINT : Nat := 0x2
def PARMRK : Nat := 0x8
def ISTRIP : Nat := 0x20
def INLCR : Nat := 0x40
def IGNCR : Nat := 0x80
def ICRNL : Nat := 0x100
def OPOST : Nat := 0x1
def ECHO : Nat := 0x8
def ECHONL : Nat := 0x40
def ICANON : Nat := 0x2
def ISIG : Nat := 0x1
def IEXTEN : Nat := 0x8000

/-- Bitwise complement within a 32-bit word: the Rust code manipulates
`u32` termios fields with `&= !mask`. -/
def compl32 (m : Nat) : Nat := 0xFFFFFFFF ^^^ m

/-- Linux `Bxxx` speed constants used by `set_baud_rate` and `baud_rate`. -/
def B50 : Nat := 0o1
def B75 : Nat := 0o2
def B110 : Nat := 0o3
def B134 : Nat := 0o4
def B150 : Nat := 0o5
def B200 : Nat := 0o6
def B300 : Nat := 0o7
def B600 : Nat := 0o10
def B1200 : Nat := 0o11
def B1800 : Nat := 0o12
def B2400 : Nat := 0o13
def B4800 : Nat := 0o14
def B9600 : Nat := 0o15
def B19200 : Nat := 0o16
def B38400 : Nat := 0o17
def B57600 : Nat := 0o10001
def B115200 : Nat := 0o10002
def B230400 : Nat := 0o10003
def B460800 : Nat := 0o10004
def B500000 : Nat := 0o10005
def B576000 : Nat := 0o10006
def B921600 : Nat := 0o10007
def B1000000 : Nat := 0o10010
def B1152000 : Nat := 0o10011
def B1500000 : Nat := 0o10012
def B2000000 : Nat := 0o10013
def B2500000 : Nat := 0o10014
def B3000000 : Nat := 0o10015
def B3500000 : Nat := 0o10016
def B4000000 : Nat := 0o10017

/-! ## Data model (from `src/lib.rs` and the types used by `src/posix/tty.rs`) -/

/-- Error kinds from `src/lib.rs` (`enum ErrorKind`); the `Io` payload keeps
only the distinctions the POSIX backend produces. -/
inductive IoKind where
  | timedOut
  | other
deriving DecidableEq, Repr

inductive ErrorKind where
  | NoDevice
  | InvalidInput
  | Unknown
  | Io (k : IoKind)
deriving DecidableEq, Repr

/-- Error from `src/lib.rs` (`struct Error`): a kind plus a description. -/
structure Error where
  kind : ErrorKind
  description : String
deriving DecidableEq, Repr

inductive DataBits where
  | Five
  | Six
  | Seven
  | Eight
deriving DecidableEq, Repr

inductive Parity where
  | None
  | Odd
  | Even
deriving DecidableEq, Repr

inductive StopBits where
  | One
  | Two
deriving DecidableEq, Repr

inductive FlowControl where
  | None
  | Software
  | Hardware
deriving DecidableEq, Repr

/-- Port baud rate.

Modelled from the spec and from the exhaustive `match` arms of
`TTYPort::set_baud_rate` (the `BaudRate` enum itself lives in crate code that
is not under `src/`): it has one named variant per rate in the Linux table
plus `BaudOther` for arbitrary rates. The BSD-only variants (7200, 14400,
28800, 76800) are `cfg`-gated out on Linux and therefore absent here. -/
inductive BaudRate where
  | Baud50
  | Baud75
  | Baud110
  | Baud134
  | Baud150
  | Baud200
  | Baud300
  | Baud600
  | Baud1200
  | Baud1800
  | Baud2400
  | Baud4800
  | Baud9600
  | Baud19200
  | Baud38400
  | Baud57600
  | Baud115200
  | Baud230400
  | Baud460800
  | Baud500000
  | Baud576000
  | Baud921600
  | Baud1000000
  | Baud1152000
  | Baud1500000
  | Baud2000000
  | Baud2500000
  | Baud3000000
  | Baud3500000
  | Baud4000000
  | BaudOther (n : Nat)
deriving DecidableEq, Repr

/-- Numeric rate named by a `BaudRate` value (symbols per second). -/
def BaudRate.speed : BaudRate → Nat
  | .Baud50 => 50
  | .Baud75 => 75
  | .Baud110 => 110
  | .Baud134 => 134
  | .Baud150 => 150
  | .Baud200 => 200
  | .Baud300 => 300
  | .Baud600 => 600
  | .Baud1200 => 1200
  | .Baud1800 => 1800
  | .Baud2400 => 2400
  | .Baud4800 => 4800
  | .Baud9600 => 9600
  | .Baud19200 => 19200
  | .Baud38400 => 38400
  | .Baud57600 => 57600
  | .Baud115200 => 115200
  | .Baud230400 => 230400
  | .Baud460800 => 460800
  | .Baud500000 => 500000
  | .Baud576000 => 576000
  | .Baud921600 => 921600
  | .Baud1000000 => 1000000
  | .Baud1152000 => 1152000
  | .Baud1500000 => 1500000
  | .Baud2000000 => 2000000
  | .Baud2500000 => 2500000
  | .Baud3000000 => 3000000
  | .Baud3500000 => 3500000
  | .Baud4000000 => 4000000
  | .BaudOther n => n

/-- Serial-port settings struct.

Modelled from the spec and from the field accesses in `TTYPort::set_all` and
`TTYPort::settings` (the struct definition lives in crate code not under
`src/`). The timeout is a duration in milliseconds. -/
structure SerialPortSettings where
  baud_rate : BaudRate
  data_bits : DataBits
  flow_control : FlowControl
  parity : Parity
  stop_bits : StopBits
  timeout : Nat
deriving DecidableEq, Repr

/-- Raw terminal-attribute snapshot (`termios::Termios`), restricted to the
fields the code reads or writes; speeds are the encoded `Bxxx` constants as
stored by `cfsetspeed` and read by `cfgetispeed`/`cfgetospeed`. -/
structure Termios where
  c_iflag : Nat
  c_oflag : Nat
  c_cflag : Nat
  c_lflag : Nat
  ispeed : Nat
  ospeed : Nat
deriving DecidableEq, Repr

/-- Behaviour of libc `cfsetspeed`: sets both the input and the output speed
of the attribute snapshot to the given encoded speed. -/
def cfsetspeed (t : Termios) (speed : Nat) : Termios :=
  { t with ispeed := speed, ospeed := speed }

/-- Behaviour of glibc `cfmakeraw` on the embedded fields. -/
def cfmakeraw (t : Termios) : Termios :=
  { t with
    c_iflag := t.c_iflag &&&
      compl32 (IGNBRK ||| BRKINT ||| PARMRK ||| ISTRIP ||| INLCR ||| IGNCR ||| ICRNL ||| IXON),
    c_oflag := t.c_oflag &&& compl32 OPOST,
    c_lflag := t.c_lflag &&& compl32 (ECHO ||| ECHONL ||| ICANON ||| ISIG ||| IEXTEN),
    c_cflag := (t.c_cflag &&& compl32 (CSIZE ||| PARENB)) ||| CS8 }

/-! ## Flag Translator: the pure content of the getters and setters -/

/-- Speed-constant table of `TTYPort::set_baud_rate` (Linux arms): named
variants map to their `Bxxx` constant, `BaudOther` has no entry (the code
returns `EINVAL` for it). -/
def baudToPlatform : BaudRate → Option Nat
  | .Baud50 => some B50
  | .Baud75 => some B75
  | .Baud110 => some B110
  | .Baud134 => some B134
  | .Baud150 => some B150
  | .Baud200 => some B200
  | .Baud300 => some B300
  | .Baud600 => some B600
  | .Baud1200 => some B1200
  | .Baud1800 => some B1800
  | .Baud2400 => some B2400
  | .Baud4800 => some B4800
  | .Baud9600 => some B9600
  | .Baud19200 => some B19200
  | .Baud38400 => some B38400
  | .Baud57600 => some B57600
  | .Baud115200 => some B115200
  | .Baud230400 => some B230400
  | .Baud460800 => some B460800
  | .Baud500000 => some B500000
  | .Baud576000 => some B576000
  | .Baud921600 => some B921600
  | .Baud1000000 => some B1000000
  | .Baud1152000 => some B1152000
  | .Baud1500000 => some B1500000
  | .Baud2000000 => some B2000000
  | .Baud2500000 => some B2500000
  | .Baud3000000 => some B3000000
  | .Baud3500000 => some B3500000
  | .Baud4000000 => some B4000000
  | .BaudOther _ => none

/-- Speed readback table of `TTYPort::baud_rate` (Linux arms): note that
several speeds with a named `BaudRate` variant are nevertheless read back as
`BaudOther` by the code. -/
def baudFromPlatform (speed : Nat) : Option BaudRate :=
  if speed = B50 then some (.BaudOther 50)
  else if speed = B75 then some (.BaudOther 75)
  else if speed = B110 then some .Baud110
  else if speed = B134 then some (.BaudOther 134)
  else if speed = B150 then some (.BaudOther 150)
  else if speed = B200 then some (.BaudOther 200)
  else if speed = B300 then some .Baud300
  else if speed = B600 then some .Baud600
  else if speed = B1200 then some .Baud1200
  else if speed = B1800 then some (.BaudOther 1800)
  else if speed = B2400 then some .Baud2400
  else if speed = B4800 then some .Baud4800
  else if speed = B9600 then some .Baud9600
  else if speed = B19200 then some .Baud19200
  else if speed = B38400 then some .Baud38400
  else if speed = B57600 then some .Baud57600
  else if speed = B115200 then some .Baud115200
  else if speed = B230400 then some (.BaudOther 230400)
  else if speed = B460800 then some (.BaudOther 460800)
  else if speed = B500000 then some (.BaudOther 500000)
  else if speed = B576000 then some (.BaudOther 576000)
  else if speed = B921600 then some (.BaudOther 921600)
  else if speed = B1000000 then some (.BaudOther 1000000)
  else if speed = B1152000 then some (.BaudOther 1152000)
  else if speed = B1500000 then some (.BaudOther 1500000)
  else if speed = B2000000 then some (.BaudOther 2000000)
  else if speed = B2500000 then some (.BaudOther 2500000)
  else if speed = B3000000 then some (.BaudOther 3000000)
  else if speed = B3500000 then some (.BaudOther 3500000)
  else if speed = B4000000 then some (.BaudOther 4000000)
  else none

/-- Getter `TTYPort::baud_rate`: `None` when input and output speed differ,
otherwise the table readback of the output speed. -/
def baudRateOf (t : Termios) : Option BaudRate :=
  if t.ospeed ≠ t.ispeed then none else baudFromPlatform t.ospeed

/-- Getter `TTYPort::data_bits`: decode the `CSIZE` field. -/
def dataBitsOf (t : Termios) : Option DataBits :=
  let v := t.c_cflag &&& CSIZE
  if v = CS8 then some .Eight
  else if v = CS7 then some .Seven
  else if v = CS6 then some .Six
  else if v = CS5 then some .Five
  else none

/-- Getter `TTYPort::flow_control`: tests the hardware flag `CRTSCTS` first,
then the software flags `IXON | IXOFF`. -/
def flowControlOf (t : Termios) : Option FlowControl :=
  if t.c_cflag &&& CRTSCTS ≠ 0 then some .Hardware
  else if t.c_iflag &&& (IXON ||| IXOFF) ≠ 0 then some .Software
  else some .None

/-- Getter `TTYPort::parity`. -/
def parityOf (t : Termios) : Option Parity :=
  if t.c_cflag &&& PARENB ≠ 0 then
    if t.c_cflag &&& PARODD ≠ 0 then some .Odd else some .Even
  else some .None

/-- Getter `TTYPort::stop_bits`. -/
def stopBitsOf (t : Termios) : Option StopBits :=
  if t.c_cflag &&& CSTOPB ≠ 0 then some .Two else some .One

/-- Flag update performed by `TTYPort::set_flow_control` on the cached
attribute snapshot (before `write_settings` pushes it to the device). -/
def setFlowControlFlags (t : Termios) (f : FlowControl) : Termios :=
  match f with
  | .None =>
    { t with c_iflag := t.c_iflag &&& compl32 (IXON ||| IXOFF),
             c_cflag := t.c_cflag &&& compl32 CRTSCTS }
  | .Software =>
    { t with c_iflag := t.c_iflag ||| (IXON ||| IXOFF),
             c_cflag := t.c_cflag &&& compl32 CRTSCTS }
  | .Hardware =>
    { t with c_iflag := t.c_iflag &&& compl32 (IXON ||| IXOFF),
             c_cflag := t.c_cflag ||| CRTSCTS }

/-- Flag update performed by `TTYPort::set_data_bits`. -/
def setDataBitsFlags (t : Termios) (d : DataBits) : Termios :=
  let size := match d with
    | .Five => CS5
    | .Six => CS6
    | .Seven => CS7
    | .Eight => CS8
  { t with c_cflag := (t.c_cflag &&& compl32 CSIZE) ||| size }

/-- Flag update performed by `TTYPort::set_parity`. -/
def setParityFlags (t : Termios) (p : Parity) : Termios :=
  match p with
  | .None =>
    { t with c_cflag := t.c_cflag &&& compl32 (PARENB ||| PARODD),
             c_iflag := (t.c_iflag &&& compl32 INPCK) ||| IGNPAR }
  | .Odd =>
    { t with c_cflag := t.c_cflag ||| (PARENB ||| PARODD),
             c_iflag := (t.c_iflag ||| INPCK) &&& compl32 IGNPAR }
  | .Even =>
    { t with c_cflag := (t.c_cflag &&& compl32 PARODD) ||| PARENB,
             c_iflag := (t.c_iflag ||| INPCK) &&& compl32 IGNPAR }

/-- Flag update performed by `TTYPort::set_stop_bits`. -/
def setStopBitsFlags (t : Termios) (s : StopBits) : Termios :=
  match s with
  | .One => { t with c_cflag := t.c_cflag &&& compl32 CSTOPB }
  | .Two => { t with c_cflag := t.c_cflag ||| CSTOPB }

/-! ## Port Handle state and the stateful operations -/

/-- Fields of `struct TTYPort`; the timeout is in milliseconds. -/
structure TTYPortState where
  fd : Nat
  termios : Termios
  timeout : Nat
  exclusive : Bool
  port_name : Option String
deriving DecidableEq, Repr

/-- Side-effecting calls recorded in traces: `libc::close` (via `cleanup_fd`)
and the `TIOCNXCL` ioctl issued by `Drop`. -/
inductive SysAct where
  | close (fd : Nat)
  | tiocnxcl (fd : Nat)
deriving DecidableEq, Repr

/-- Generic error produced by a failed syscall, converted through
`From<io::Error>`/`From<nix::Error>`; the claims never inspect its
description, only that it is not one of the specific errors below. -/
def ioError : Error := ⟨.Io .other, "I/O error"⟩

/-- Error for `BaudRate::BaudOther` in `set_baud_rate`: the code returns
`nix::Error::from_errno(EINVAL)`.

Modelled from the spec: the `From<nix::Error> for Error` conversion lives in
crate code not under `src/`; per the spec an unsupported baud rate surfaces
as `InvalidInput`. -/
def einvalError : Error := ⟨.InvalidInput, "Invalid argument"⟩

/-- The readback-mismatch error constructed verbatim in `TTYPort::open`. -/
def settingsMismatchError : Error := ⟨.Unknown, "Settings did not apply correctly"⟩

/-- Setter `TTYPort::set_baud_rate` as a transition on the handle state.
`ws` is the outcome of the `write_settings` call (its `tcsetattr`+`tcflush`
pair collapsed into one success bit); for `BaudOther` the code returns
`EINVAL` before touching the cached attributes or issuing any syscall. -/
def set_baud_rate (ws : Bool) (p : TTYPortState) (b : BaudRate) :
    Except Error Unit × TTYPortState :=
  match baudToPlatform b with
  | none => (.error einvalError, p)
  | some spd =>
    let p1 := { p with termios := cfsetspeed p.termios spd }
    ((if ws then .ok () else .error ioError), p1)

/-- Setter `TTYPort::set_data_bits` as a transition on the handle state. -/
def set_data_bits (ws : Bool) (p : TTYPortState) (d : DataBits) :
    Except Error Unit × TTYPortState :=
  let p1 := { p with termios := setDataBitsFlags p.termios d }
  ((if ws then .ok () else .error ioError), p1)

/-- Setter `TTYPort::set_flow_control` as a transition on the handle state. -/
def set_flow_control (ws : Bool) (p : TTYPortState) (f : FlowControl) :
    Except Error Unit × TTYPortState :=
  let p1 := { p with termios := setFlowControlFlags p.termios f }
  ((if ws then .ok () else .error ioError), p1)

/-- Setter `TTYPort::set_parity` as a transition on the handle state. -/
def set_parity (ws : Bool) (p : TTYPortState) (par : Parity) :
    Except Error Unit × TTYPortState :=
  let p1 := { p with termios := setParityFlags p.termios par }
  ((if ws then .ok () else .error ioError), p1)

/-- Setter `TTYPort::set_stop_bits` as a transition on the handle state. -/
def set_stop_bits (ws : Bool) (p : TTYPortState) (s : StopBits) :
    Except Error Unit × TTYPortState :=
  let p1 := { p with termios := setStopBitsFlags p.termios s }
  ((if ws then .ok () else .error ioError), p1)

/-- Setter `TTYPort::set_timeout`: infallible, updates only the in-process
cache. -/
def set_timeout (p : TTYPortState) (d : Nat) : Except Error Unit × TTYPortState :=
  (.ok (), { p with timeout := d })

/-- `TTYPort::set_all`: the six setters in source order, stopping at the
first failure. `ws` gives the outcome of the i-th `write_settings` call. -/
def set_all (ws : Nat → Bool) (p : TTYPortState) (s : SerialPortSettings) :
    Except Error Unit × TTYPortState :=
  match set_baud_rate (ws 0) p s.baud_rate with
  | (.error e, p1) => (.error e, p1)
  | (.ok _, p1) =>
    match set_data_bits (ws 1) p1 s.data_bits with
    | (.error e, p2) => (.error e, p2)
    | (.ok _, p2) =>
      match set_flow_control (ws 2) p2 s.flow_control with
      | (.error e, p3) => (.error e, p3)
      | (.ok _, p3) =>
        match set_parity (ws 3) p3 s.parity with
        | (.error e, p4) => (.error e, p4)
        | (.ok _, p4) =>
          match set_stop_bits (ws 4) p4 s.stop_bits with
          | (.error e, p5) => (.error e, p5)
          | (.ok _, p5) => set_timeout p5 s.timeout

/-- Getters reassembled by `TTYPort::settings`; every `.expect(..)` in the
source is modelled as `Option.bind`, so a `none` result means the source
panics. -/
def settings (p : TTYPortState) : Option SerialPortSettings :=
  (baudRateOf p.termios).bind fun baud =>
    (dataBitsOf p.termios).bind fun db =>
      (flowControlOf p.termios).bind fun fc =>
        (parityOf p.termios).bind fun par =>
          (stopBitsOf p.termios).bind fun sb =>
            some ⟨baud, db, fc, par, sb, p.timeout⟩

/-- Drop for `TTYPort`: `tiocnxcl(fd).unwrap_or(())` then `cleanup_fd(fd)`.
The outcome of the `TIOCNXCL` ioctl is taken as an argument and discarded,
exactly as `unwrap_or(())` discards it. -/
def dropPort (p : TTYPortState) (tiocnxclOutcome : Bool) : List SysAct :=
  let _ := tiocnxclOutcome
  [.tiocnxcl p.fd, .close p.fd]

/-- Outcomes of the syscalls performed by `TTYPort::open` after the
descriptor has been acquired (the acquisition itself either fails before any
resource exists or yields `fd`). -/
structure OpenEnv where
  fd : Nat
  /-- result of `Termios::from_fd` (the initial `tcgetattr`) -/
  initialAttrs : Option Termios
  tcsetattrOk : Bool
  /-- result of the verifying second `tcgetattr` -/
  readback : Option Termios
  tcflushOk : Bool
  tiocexclOk : Bool
  fcntlOk : Bool
  /-- outcomes of the `write_settings` calls inside `set_all` -/
  ws : Nat → Bool
  /-- outcome of the `TIOCNXCL` ioctl should `Drop` run -/
  tiocnxclOk : Bool

/-- Attributes that `TTYPort::open` requests: the initial snapshot with
`CREAD | CLOCAL` set and `cfmakeraw` applied. -/
def rawRequested (t0 : Termios) : Termios :=
  cfmakeraw { t0 with c_cflag := t0.c_cflag ||| (CREAD ||| CLOCAL) }

/-- `TTYPort::open` after the descriptor has been acquired: returns the
result together with the trace of `close`/`TIOCNXCL` calls. Each failure arm
mirrors a `cleanup_fd(fd); return Err(..)` in the source; in the `set_all`
failure arm the already-constructed `port` value is additionally dropped by
Rust on the early return, which runs `Drop for TTYPort`. -/
def openPort (env : OpenEnv) (path : String) (s : SerialPortSettings) :
    Except Error TTYPortState × List SysAct :=
  match env.initialAttrs with
  | none => (.error ioError, [.close env.fd])
  | some t0 =>
    let t2 := rawRequested t0
    if env.tcsetattrOk = false then (.error ioError, [.close env.fd])
    else
      match env.readback with
      | none => (.error ioError, [.close env.fd])
      | some actual =>
        if actual ≠ t2 then (.error settingsMismatchError, [.close env.fd])
        else if env.tcflushOk = false then (.error ioError, [.close env.fd])
        else if env.tiocexclOk = false then (.error ioError, [.close env.fd])
        else if env.fcntlOk = false then (.error ioError, [.close env.fd])
        else
          let port : TTYPortState :=
            { fd := env.fd, termios := t2, timeout := 100,
              exclusive := true, port_name := some path }
          match set_all env.ws port s with
          | (.error e, port1) =>
            (.error e, .close env.fd :: dropPort port1 env.tiocnxclOk)
          | (.ok _, port1) => (.ok port1, [])

/-! ## Blocking I/O Engine -/

/-- Outcome of the readiness wait preceding each read/write.

Modelled from the spec: `super::poll::wait_read_fd`/`wait_write_fd` live in
`src/posix/poll.rs`, which is not under `src/`; per the spec the wait is
bounded by the handle's configured timeout and its expiry surfaces as a
timed-out I/O error, while readiness lets the operation proceed. -/
inductive WaitOutcome where
  | ready
  | timedOut
  | failed (k : IoKind)
deriving DecidableEq, Repr

/-- `io::Read::read` for `TTYPort`: wait for readiness, then issue exactly
one `libc::read`. `sysRet` is that syscall's return value; the second
component counts the `libc::read` calls issued. -/
def ttyRead (wait : WaitOutcome) (sysRet : Int) : Except IoKind Nat × Nat :=
  match wait with
  | .timedOut => (.error .timedOut, 0)
  | .failed k => (.error k, 0)
  | .ready =>
    if 0 ≤ sysRet then (.ok sysRet.toNat, 1) else (.error .other, 1)

/-- `io::Write::write` for `TTYPort`: wait for writability, then issue
exactly one `libc::write`; the second component counts the `libc::write`
calls issued. -/
def ttyWrite (wait : WaitOutcome) (sysRet : Int) : Except IoKind Nat × Nat :=
  match wait with
  | .timedOut => (.error .timedOut, 0)
  | .failed k => (.error k, 0)
  | .ready =>
    if 0 ≤ sysRet then (.ok sysRet.toNat, 1) else (.error .other, 1)

/-! ## Device Enumerator (Linux `available_ports` and helpers) -/

/-- USB metadata as constructed by the POSIX enumerator's `port_type` (the
later `src/lib.rs` snapshot adds two `*_database` fields that the POSIX
enumerator never fills; they are omitted here because `port_type` in
`src/posix/tty.rs` constructs exactly these five). `vid`/`pid` are `u16`. -/
structure UsbPortInfo where
  vid : Nat
  pid : Nat
  serial_number : Option String
  manufacturer : Option String
  product : Option String
deriving DecidableEq, Repr

inductive SerialPortType where
  | UsbPort (info : UsbPortInfo)
  | PciPort
  | BluetoothPort
  | Unknown
deriving DecidableEq, Repr

structure SerialPortInfo where
  port_name : String
  port_type : SerialPortType
deriving DecidableEq, Repr

/-- One hex digit, as accepted by `u16::from_str_radix(_, 16)`. -/
def hexDigit (c : Char) : Option Nat :=
  if '0' ≤ c ∧ c ≤ '9' then some (c.toNat - 48)
  else if 'a' ≤ c ∧ c ≤ 'f' then some (c.toNat - 87)
  else if 'A' ≤ c ∧ c ≤ 'F' then some (c.toNat - 55)
  else none

/-- Behaviour of `u16::from_str_radix(s, 16)`: optional leading `+` sign,
then at least one hex digit, failing on an invalid digit or on overflow past
`u16::MAX`. (A leading `-` is treated as an invalid digit here; in Rust it
fails with an underflow error for any nonzero value, so the observable
outcome agrees on every input the enumerator can meet.) -/
def fromStrRadix16 (s : String) : Option Nat :=
  let cs := match s.toList with
    | '+' :: rest => rest
    | cs => cs
  if cs.isEmpty then none
  else
    cs.foldl
      (fun acc c =>
        acc.bind fun n =>
          (hexDigit c).bind fun d =>
            let m := 16 * n + d
            if m ≤ 0xFFFF then some m else none)
      (some 0)

/-- Property table of a udev device (`Device::property_value` composed with
`OsStr::to_str`, so a non-UTF-8 value is already `none`). -/
def UdevProps := String → Option String

/-- Helper `udev_property_as_string`. -/
def udev_property_as_string (props : UdevProps) (key : String) : Option String :=
  props key

/-- Helper `udev_hex_property_as_u16`. -/
def udev_hex_property_as_u16 (props : UdevProps) (key : String) : Except Error Nat :=
  match props key with
  | some hexStr =>
    match fromStrRadix16 hexStr with
    | some num => .ok num
    | none => .error ⟨.Unknown, "value not hex string"⟩
  | none => .error ⟨.Unknown, "key not found"⟩

/-- Classification function `port_type` (Linux): USB devices require valid
hex `ID_VENDOR_ID`/`ID_MODEL_ID` properties, whose absence or malformedness
propagates as an error. -/
def port_type (props : UdevProps) : Except Error SerialPortType :=
  match props "ID_BUS" with
  | some "usb" =>
    let serial_number := udev_property_as_string props "ID_SERIAL_SHORT"
    match udev_hex_property_as_u16 props "ID_VENDOR_ID" with
    | .error e => .error e
    | .ok vid =>
      match udev_hex_property_as_u16 props "ID_MODEL_ID" with
      | .error e => .error e
      | .ok pid =>
        .ok (.UsbPort
          { vid := vid, pid := pid, serial_number := serial_number,
            manufacturer := udev_property_as_string props "ID_VENDOR",
            product := udev_property_as_string props "ID_MODEL" })
  | some "pci" => .ok .PciPort
  | _ => .ok .Unknown

/-- One udev device as seen by the enumeration loop: whether it has a parent,
the parent's driver name (when resolvable), its device node path (merging
`devnode()` and `to_str()`, so a missing node or non-UTF-8 path is `none`),
the outcome of the `TTYPort::open` probe on the node, and its udev
properties. -/
structure UdevDevice where
  hasParent : Bool
  driver : Option String
  devnode : Option String
  openOk : Bool
  props : UdevProps

/-- Body of the `for d in devices` loop of Linux `available_ports` for one
device: the port-info entry it contributes (if any) and the trace of device
paths on which a `TTYPort::open` probe was attempted. -/
def scanDevice (d : UdevDevice) : Option SerialPortInfo × List String :=
  if d.hasParent then
    match d.devnode with
    | some path =>
      match d.driver with
      | some drv =>
        if d.openOk = false ∧ drv = "serial8250" then (none, [path])
        else
          match port_type d.props with
          | .ok pt => (some ⟨path, pt⟩, [path])
          | .error _ => (none, [path])
      | none =>
        match port_type d.props with
        | .ok pt => (some ⟨path, pt⟩, [])
        | .error _ => (none, [])
    | none => (none, [])
  else (none, [])

/-- The entries pushed onto `vec` by the enumeration loop. -/
def collectPorts : List UdevDevice → List SerialPortInfo
  | [] => []
  | d :: ds =>
    match (scanDevice d).1 with
    | some info => info :: collectPorts ds
    | none => collectPorts ds

/-- The device paths on which the loop attempted a `TTYPort::open` probe. -/
def openAttempts : List UdevDevice → List String
  | [] => []
  | d :: ds => (scanDevice d).2 ++ openAttempts ds

/-- Wholesale error for a failed enumerator/match/scan call, converted
through `?`.

Modelled from the spec: `From<libudev::Error> for Error` lives in crate code
not under `src/`; per the spec wholesale iteration failures propagate as
`Unknown`. -/
def udevError : Error := ⟨.Unknown, "udev error"⟩

/-- Outcomes of the udev setup calls made by Linux `available_ports`. -/
structure UdevEnv where
  ctxOk : Bool
  enumeratorOk : Bool
  matchOk : Bool
  scanOk : Bool
  devices : List UdevDevice

/-- Linux `available_ports`: note that a failed `libudev::Context::new()` is
swallowed by `if let Ok(context) = ..` and yields `Ok(vec![])`, while the
three subsequent setup calls propagate their errors with `?`. The second
component is the trace of attempted device opens. -/
def available_ports (env : UdevEnv) :
    Except Error (List SerialPortInfo) × List String :=
  if env.ctxOk = false then (.ok [], [])
  else if env.enumeratorOk = false then (.error udevError, [])
  else if env.matchOk = false then (.error udevError, [])
  else if env.scanOk = false then (.error udevError, [])
  else (.ok (collectPorts env.devices), openAttempts env.devices)

/-! ## Concrete sample inputs used by witness and counterexample theorems -/

/-- Baud rates with a named variant on Linux: the enumerated table of
supported rates (every `BaudRate` variant other than `BaudOther`). -/
def supportedBaudRates : List BaudRate :=
  [.Baud50, .Baud75, .Baud110, .Baud134, .Baud150, .Baud200, .Baud300,
   .Baud600, .Baud1200, .Baud1800, .Baud2400, .Baud4800, .Baud9600,
   .Baud19200, .Baud38400, .Baud57600, .Baud115200, .Baud230400,
   .Baud460800, .Baud500000, .Baud576000, .Baud921600, .Baud1000000,
   .Baud1152000, .Baud1500000, .Baud2000000, .Baud2500000, .Baud3000000,
   .Baud3500000, .Baud4000000]

/-- The rates whose readback arm in `TTYPort::baud_rate` names the same
variant that `set_baud_rate` consumed; all other supported rates read back
as `BaudOther` of the same numeric speed. -/
def exactRoundTripBauds : List BaudRate :=
  [.Baud110, .Baud300, .Baud600, .Baud1200, .Baud2400, .Baud4800,
   .Baud9600, .Baud19200, .Baud38400, .Baud57600, .Baud115200]

def sampleTermios : Termios := ⟨0, 0, 0, 0, 0, 0⟩

def samplePort : TTYPortState := ⟨3, sampleTermios, 100, true, none⟩

/-- Port whose cached snapshot has unequal input/output speeds (and a valid
`CS8` character size), as left behind by external manipulation. -/
def sampleSplitSpeedPort : TTYPortState := ⟨3, ⟨0, 0, CS8, 0, B9600, B19200⟩, 100, true, none⟩

/-- Termios snapshot with both the hardware and the software flow-control
flags set. -/
def bothFlowTermios : Termios := ⟨IXON ||| IXOFF, 0, CRTSCTS, 0, 0, 0⟩

/-- Handle whose cached snapshot is `bothFlowTermios`. -/
def sampleBothFlowPort : TTYPortState := ⟨3, bothFlowTermios, 100, true, none⟩

/-- Open environment in which every syscall succeeds and the verifying
readback returns exactly the requested attributes. -/
def openEnvAllOk : OpenEnv :=
  { fd := 3, initialAttrs := some sampleTermios, tcsetattrOk := true,
    readback := some (rawRequested sampleTermios),
    tcflushOk := true, tiocexclOk := true, fcntlOk := true,
    ws := fun _ => true, tiocnxclOk := true }

/-- Open environment in which the verifying readback disagrees with the
requested attributes. -/
def openEnvMismatch : OpenEnv :=
  { fd := 5, initialAttrs := some sampleTermios, tcsetattrOk := true,
    readback := some sampleTermios,
    tcflushOk := true, tiocexclOk := true, fcntlOk := true,
    ws := fun _ => true, tiocnxclOk := true }

/-- Settings whose baud rate is outside the enumerated table, so that
`set_all` fails at its first step. -/
def badBaudSettings : SerialPortSettings :=
  ⟨.BaudOther 12345, .Eight, .None, .None, .One, 0⟩

/-- Property table with no properties at all. -/
def noProps : UdevProps := fun _ => none

/-- Device bound to a non-legacy driver whose open probe fails. -/
def phantomFtdiDevice : UdevDevice :=
  { hasParent := true, driver := some "ftdi_sio", devnode := some "/dev/ttyUSB0",
    openOk := false, props := noProps }

/-- Device bound to the legacy UART driver whose open probe fails. -/
def phantomLegacyDevice : UdevDevice :=
  { hasParent := true, driver := some "serial8250", devnode := some "/dev/ttyS7",
    openOk := false, props := noProps }

/-- USB device whose `ID_VENDOR_ID` property is not a valid hex string. -/
def badUsbDevice : UdevDevice :=
  { hasParent := true, driver := some "cdc_acm", devnode := some "/dev/ttyACM0",
    openOk := true,
    props := fun k =>
      if k = "ID_BUS" then some "usb"
      else if k = "ID_VENDOR_ID" then some "zzzz"
      else none }

/-- Healthy device with no bus classification. -/
def plainDevice : UdevDevice :=
  { hasParent := true, driver := some "cdc_acm", devnode := some "/dev/ttyACM1",
    openOk := true, props := noProps }

/-- Enumeration environment in which creating the udev context fails. -/
def envCtxFail : UdevEnv :=
  { ctxOk := false, enumeratorOk := true, matchOk := true, scanOk := true,
    devices := [plainDevice] }

/-- Enumeration environment in which everything succeeds. -/
def envScanOk : UdevEnv :=
  { ctxOk := true, enumeratorOk := true, matchOk := true, scanOk := true,
    devices := [badUsbDevice, plainDevice] }

/-! ## Helper lemmas -/

theorem land_land_of_land_eq_zero (x : Nat) {c m : Nat} (h : c &&& m = 0) :
    (x &&& c) &&& m = 0 := by
  rw [Nat.land_assoc, h]
  apply Nat.eq_of_testBit_eq
  intro i
  simp [Nat.testBit_land, Nat.zero_testBit]

theorem lor_land_self (x m : Nat) : (x ||| m) &&& m = m := by
  apply Nat.eq_of_testBit_eq
  intro i
  simp [Nat.testBit_land, Nat.testBit_lor]
  intro h
  exact Or.inr h

theorem flowControlOf_isSome (t : Termios) : (flowControlOf t).isSome := by
  unfold flowControlOf
  split
  · simp
  · split <;> simp

theorem parityOf_isSome (t : Termios) : (parityOf t).isSome := by
  unfold parityOf
  split <;> [skip; simp]
  split <;> simp

theorem stopBitsOf_isSome (t : Termios) : (stopBitsOf t).isSome := by
  unfold stopBitsOf
  split <;> simp

theorem collectPorts_append (xs ys : List UdevDevice) :
    collectPorts (xs ++ ys) = collectPorts xs ++ collectPorts ys := by
  induction xs with
  | nil => simp [collectPorts]
  | cons d ds ih =>
    simp only [List.cons_append, collectPorts]
    cases (scanDevice d).1 <;> simp [ih]

/-! ## Claim theorems -/

/-- Claim C9: destruction of a Port Handle always attempts to release
exclusivity with any error ignored (the trace is the same whatever the
`TIOCNXCL` outcome), and always closes the descriptor, releasing the lock
first and closing second. -/
theorem drop_releases_then_closes (p : TTYPortState) (r : Bool) :
    dropPort p r = [.tiocnxcl p.fd, .close p.fd] ∧ dropPort p r = dropPort p true :=
  ⟨rfl, rfl⟩

/-- Claim C5: for every baud rate outside the enumerated table
(`BaudRate::BaudOther`), `set_baud_rate` returns an `InvalidInput` error and
leaves the cached terminal state — and hence the `baud_rate` readback —
unchanged. -/
theorem set_baud_other_invalid_input (ws : Bool) (p : TTYPortState) (n : Nat) :
    set_baud_rate ws p (.BaudOther n) = (.error einvalError, p) ∧
    einvalError.kind = .InvalidInput ∧
    baudRateOf (set_baud_rate ws p (.BaudOther n)).2.termios = baudRateOf p.termios :=
  ⟨rfl, rfl, rfl⟩

/-- Claim C6: `set_flow_control` enables only the selected mode's flag bits
and clears the other mode's bits (hardware clears `IXON|IXOFF`, software
clears `CRTSCTS`, none clears both), the readback tests the hardware flag
before the software flags, and after a set the readback returns exactly the
value that was set. -/
theorem flow_control_set_get :
    (∀ (p : TTYPortState) (f : FlowControl),
      (set_flow_control true p f).1 = .ok () ∧
      flowControlOf (set_flow_control true p f).2.termios = some f ∧
      (f = .Hardware → (setFlowControlFlags p.termios f).c_iflag &&& (IXON ||| IXOFF) = 0) ∧
      (f = .Software → (setFlowControlFlags p.termios f).c_cflag &&& CRTSCTS = 0) ∧
      (f = .None → (setFlowControlFlags p.termios f).c_iflag &&& (IXON ||| IXOFF) = 0 ∧
        (setFlowControlFlags p.termios f).c_cflag &&& CRTSCTS = 0)) ∧
    (∀ t : Termios, t.c_cflag &&& CRTSCTS ≠ 0 → flowControlOf t = some .Hardware) := by
  constructor
  · intro p f
    have hcc : ∀ x : Nat, (x &&& compl32 CRTSCTS) &&& CRTSCTS = 0 :=
      fun x => land_land_of_land_eq_zero x (by decide)
    have hii : ∀ x : Nat, (x &&& compl32 (IXON ||| IXOFF)) &&& (IXON ||| IXOFF) = 0 :=
      fun x => land_land_of_land_eq_zero x (by decide)
    have hio : (IXON ||| IXOFF) ≠ 0 := by decide
    have hcr : CRTSCTS ≠ 0 := by decide
    cases f with
    | None =>
      refine ⟨rfl, ?_, by simp, by simp,
        fun _ => ⟨hii p.termios.c_iflag, hcc p.termios.c_cflag⟩⟩
      simp [set_flow_control, flowControlOf, setFlowControlFlags, hcc, hii]
    | Software =>
      refine ⟨rfl, ?_, by simp, fun _ => hcc p.termios.c_cflag, by simp⟩
      simp [set_flow_control, flowControlOf, setFlowControlFlags, hcc, lor_land_self, hio]
    | Hardware =>
      refine ⟨rfl, ?_, fun _ => hii p.termios.c_iflag, by simp, by simp⟩
      simp [set_flow_control, flowControlOf, setFlowControlFlags, lor_land_self, hcr]
  · intro t h
    simp [flowControlOf, h]

/-- Witness for C6 at a concrete state: even with both software flags set,
the readback prefers the hardware flag, and a software set clears it. -/
theorem flow_control_set_get_witness :
    flowControlOf bothFlowTermios = some .Hardware ∧
    flowControlOf (set_flow_control true sampleBothFlowPort .Software).2.termios = some .Software :=
  ⟨flow_control_set_get.2 bothFlowTermios (by decide),
   (flow_control_set_get.1 sampleBothFlowPort .Software).2.1⟩

/-- Claim C7: each read/write first waits for readiness bounded by the
configured timeout; a timed-out wait yields a timeout-kind error with no
syscall issued, and a satisfied wait leads to exactly one underlying
read/write syscall whose byte count is returned unchanged (no retry), even
when it is smaller than the buffer length. -/
theorem read_write_single_syscall (r : Int) :
    ttyRead .timedOut r = (.error .timedOut, 0) ∧
    ttyWrite .timedOut r = (.error .timedOut, 0) ∧
    (0 ≤ r → ttyRead .ready r = (.ok r.toNat, 1)) ∧
    (0 ≤ r → ttyWrite .ready r = (.ok r.toNat, 1)) := by
  refine ⟨rfl, rfl, fun h => ?_, fun h => ?_⟩ <;> simp [ttyRead, ttyWrite, h]

/-- Witness for C7: a ready descriptor whose syscall moves 2 bytes returns
exactly 2 from one syscall; a timed-out wait returns the timeout error. -/
theorem read_write_single_syscall_witness :
    ttyRead .ready 2 = (.ok 2, 1) ∧ ttyWrite .timedOut 0 = (.error .timedOut, 0) :=
  ⟨(read_write_single_syscall 2).2.2.1 (by decide), (read_write_single_syscall 0).2.1⟩

/-- Counterexample to claim C1: `Baud50` is a supported rate of the
enumerated table, the set succeeds, but the readback returns
`BaudOther(50)`, not `Baud50`. -/
theorem baud50_roundtrip_counterexample :
    (BaudRate.Baud50 ∈ supportedBaudRates) ∧
    (set_baud_rate true samplePort .Baud50).1 = .ok () ∧
    baudRateOf (set_baud_rate true samplePort .Baud50).2.termios = some (.BaudOther 50) ∧
    BaudRate.BaudOther 50 ≠ .Baud50 :=
  ⟨by decide, rfl, by decide, by decide⟩

/-- Claim C1 as amended: for every supported rate the set succeeds and the
readback names the same numeric speed, but it returns the identical
`BaudRate` value only for the eleven rates of `exactRoundTripBauds`; every
other supported rate reads back as `BaudOther` of its speed. -/
theorem baud_roundtrip_amended (b : BaudRate) (hb : b ∈ supportedBaudRates)
    (p : TTYPortState) :
    (set_baud_rate true p b).1 = .ok () ∧
    baudRateOf (set_baud_rate true p b).2.termios =
      some (if b ∈ exactRoundTripBauds then b else .BaudOther b.speed) := by
  fin_cases hb <;>
    exact ⟨rfl, by
      simp [set_baud_rate, baudToPlatform, baudRateOf, cfsetspeed, baudFromPlatform,
        exactRoundTripBauds, BaudRate.speed,
        B50, B75, B110, B134, B150, B200, B300, B600, B1200, B1800, B2400, B4800,
        B9600, B19200, B38400, B57600, B115200, B230400, B460800, B500000, B576000,
        B921600, B1000000, B1152000, B1500000, B2000000, B2500000, B3000000,
        B3500000, B4000000]⟩

/-- Witness for the amended C1 at `Baud110` (an exact round-trip rate) on a
concrete handle state. -/
theorem baud_roundtrip_amended_witness :
    (set_baud_rate true samplePort .Baud110).1 = .ok () ∧
    baudRateOf (set_baud_rate true samplePort .Baud110).2.termios =
      some (if BaudRate.Baud110 ∈ exactRoundTripBauds then BaudRate.Baud110
            else .BaudOther (BaudRate.speed .Baud110)) :=
  baud_roundtrip_amended .Baud110 (by decide) samplePort

/-- Claim C10: `settings()` is not total — it panics (modelled as `none`)
exactly when `baud_rate()` or `data_bits()` returns `None`, which happens
when the cached speeds are unequal, the output speed is outside the table,
or the character-size field is not one of the four discrete sizes; the
remaining three getters it calls are total. -/
theorem settings_getter_panics (p : TTYPortState) :
    (settings p = none ↔ (baudRateOf p.termios = none ∨ dataBitsOf p.termios = none)) ∧
    (p.termios.ospeed ≠ p.termios.ispeed → settings p = none) ∧
    (baudFromPlatform p.termios.ospeed = none → settings p = none) ∧
    ((flowControlOf p.termios).isSome ∧ (parityOf p.termios).isSome ∧
      (stopBitsOf p.termios).isSome) := by
  obtain ⟨fc, hfc⟩ := Option.isSome_iff_exists.mp (flowControlOf_isSome p.termios)
  obtain ⟨pr, hpr⟩ := Option.isSome_iff_exists.mp (parityOf_isSome p.termios)
  obtain ⟨sb, hsb⟩ := Option.isSome_iff_exists.mp (stopBitsOf_isSome p.termios)
  have hiff : settings p = none ↔ (baudRateOf p.termios = none ∨ dataBitsOf p.termios = none) := by
    cases hb : baudRateOf p.termios <;> cases hd : dataBitsOf p.termios <;>
      simp [settings, hb, hd, hfc, hpr, hsb]
  refine ⟨hiff, fun h => ?_, fun h => ?_,
    flowControlOf_isSome p.termios, parityOf_isSome p.termios, stopBitsOf_isSome p.termios⟩
  · exact hiff.mpr (Or.inl (by simp [baudRateOf, h]))
  · exact hiff.mpr (Or.inl (by simp [baudRateOf, h]))

/-- Witness for C10: a handle whose cached snapshot has unequal input and
output speeds makes `settings()` panic. -/
theorem settings_getter_panics_witness :
    settings sampleSplitSpeedPort = none :=
  (settings_getter_panics sampleSplitSpeedPort).2.1 (by decide)

/-- Claim C3: when the attributes read back during open differ from the
requested raw-mode attributes, open fails with the `Unknown`-kind error
described "Settings did not apply correctly", produces no handle, and closes
the descriptor. -/
theorem open_readback_mismatch (env : OpenEnv) (path : String)
    (s : SerialPortSettings) (t0 act : Termios)
    (h1 : env.initialAttrs = some t0) (h2 : env.tcsetattrOk = true)
    (h3 : env.readback = some act) (h4 : act ≠ rawRequested t0) :
    openPort env path s = (.error settingsMismatchError, [.close env.fd]) ∧
    settingsMismatchError.kind = .Unknown ∧
    settingsMismatchError.description = "Settings did not apply correctly" := by
  refine ⟨?_, rfl, rfl⟩
  simp [openPort, h1, h2, h3, h4]

/-- Witness for C3: a concrete environment whose readback differs from the
requested attributes makes open fail with the mismatch error. -/
theorem open_readback_mismatch_witness :
    openPort openEnvMismatch "/dev/ttyS0" badBaudSettings =
      (.error settingsMismatchError, [.close 5]) ∧
    settingsMismatchError.kind = .Unknown ∧
    settingsMismatchError.description = "Settings did not apply correctly" :=
  open_readback_mismatch openEnvMismatch "/dev/ttyS0" badBaudSettings
    sampleTermios sampleTermios rfl rfl rfl (by decide)

/-- Claim C2 is violated on the configuration-apply failure path: with every
syscall succeeding and a `BaudOther` baud rate in the settings, `set_all`
fails, the explicit `cleanup_fd(fd)` closes the descriptor, and the `Drop`
of the already-constructed `port` value runs on the early return and closes
it a second time (after issuing `TIOCNXCL` on the closed descriptor). No
handle is produced, but the descriptor is closed twice, not once. -/
theorem open_set_all_failure_double_close :
    (openPort openEnvAllOk "/dev/ttyS0" badBaudSettings).1 = .error einvalError ∧
    (openPort openEnvAllOk "/dev/ttyS0" badBaudSettings).2 =
      [.close 3, .tiocnxcl 3, .close 3] ∧
    ((openPort openEnvAllOk "/dev/ttyS0" badBaudSettings).2.count (.close 3) = 2) :=
  ⟨rfl, rfl, by decide⟩

/-- Counterexample to claim C4: the enumeration loop attempts to open a
device bound to the driver `ftdi_sio` (which is not `serial8250`), so the
open attempt is not made only for `serial8250`-bound nodes; the device is
nevertheless kept although its open fails. -/
theorem enumeration_probe_counterexample :
    phantomFtdiDevice.driver = some "ftdi_sio" ∧
    "ftdi_sio" ≠ "serial8250" ∧
    phantomFtdiDevice.openOk = false ∧
    openAttempts [phantomFtdiDevice] = ["/dev/ttyUSB0"] ∧
    collectPorts [phantomFtdiDevice] = [⟨"/dev/ttyUSB0", .Unknown⟩] :=
  ⟨rfl, by decide, rfl, rfl, rfl⟩

/-- Claim C4 as amended: the open probe is attempted for every device node
with a parent, a device node and a resolvable driver name (whatever the
driver is), and not when the driver is unresolvable; a device whose probe
fails is skipped only when its driver is `serial8250`; devices bound to
other drivers are kept (subject only to classification) regardless of the
probe's outcome. -/
theorem enumeration_probe_amended :
    (∀ (d : UdevDevice) (path drv : String), d.hasParent = true →
      d.devnode = some path → d.driver = some drv → (scanDevice d).2 = [path]) ∧
    (∀ (d : UdevDevice) (path : String), d.hasParent = true →
      d.devnode = some path → d.driver = none → (scanDevice d).2 = []) ∧
    (∀ (d : UdevDevice) (path : String), d.hasParent = true →
      d.devnode = some path → d.driver = some "serial8250" →
      d.openOk = false → (scanDevice d).1 = none) ∧
    (∀ (d : UdevDevice) (path drv : String) (pt : SerialPortType),
      d.hasParent = true → d.devnode = some path → d.driver = some drv →
      drv ≠ "serial8250" → port_type d.props = .ok pt →
      (scanDevice d).1 = some ⟨path, pt⟩) := by
  refine ⟨?_, ?_, ?_, ?_⟩
  · intro d path drv hp hn hr
    simp only [scanDevice, hp, hn, hr, if_true]
    split
    · rfl
    · cases port_type d.props <;> simp
  · intro d path hp hn hr
    simp only [scanDevice, hp, hn, hr, if_true]
    cases port_type d.props <;> simp
  · intro d path hp hn hr ho
    simp [scanDevice, hp, hn, hr, ho]
  · intro d path drv pt hp hn hr hdrv hpt
    simp [scanDevice, hp, hn, hr, hdrv, hpt]

/-- Witness for the amended C4: the failing `serial8250`-bound device is
skipped, while a driver-resolved healthy device is probed and kept. -/
theorem enumeration_probe_amended_witness :
    (scanDevice phantomLegacyDevice).1 = none ∧
    (scanDevice plainDevice).2 = ["/dev/ttyACM1"] ∧
    (scanDevice phantomFtdiDevice).1 = some ⟨"/dev/ttyUSB0", .Unknown⟩ :=
  ⟨enumeration_probe_amended.2.2.1 phantomLegacyDevice "/dev/ttyS7" rfl rfl rfl rfl,
   enumeration_probe_amended.1 plainDevice "/dev/ttyACM1" "cdc_acm" rfl rfl rfl,
   enumeration_probe_amended.2.2.2 phantomFtdiDevice "/dev/ttyUSB0" "ftdi_sio" .Unknown
     rfl rfl rfl (by decide) rfl⟩

/-- Counterexample to claim C8: when the very first step of enumeration
(creating the udev context) fails, `available_ports` returns an empty
success, not an `Unknown`-kind error. -/
theorem enumeration_ctx_failure_counterexample :
    envCtxFail.ctxOk = false ∧ available_ports envCtxFail = (.ok [], []) :=
  ⟨rfl, rfl⟩

/-- Claim C8 as amended: a device whose classification fails is omitted while
the remaining devices are still returned; failures of the enumerator, the
subsystem match or the scan propagate as `Unknown`-kind errors; but a
failure to create the udev context itself yields an empty success list. -/
theorem enumeration_partial_failure :
    (∀ env : UdevEnv, env.ctxOk = true → env.enumeratorOk = true →
      env.matchOk = true → env.scanOk = true →
      available_ports env = (.ok (collectPorts env.devices), openAttempts env.devices)) ∧
    (∀ (d : UdevDevice) (e : Error), port_type d.props = .error e →
      (scanDevice d).1 = none) ∧
    (∀ (xs ys : List UdevDevice) (d : UdevDevice), (scanDevice d).1 = none →
      collectPorts (xs ++ d :: ys) = collectPorts (xs ++ ys)) ∧
    (∀ env : UdevEnv, env.ctxOk = true →
      (env.enumeratorOk = false ∨ (env.enumeratorOk = true ∧ env.matchOk = false) ∨
        (env.enumeratorOk = true ∧ env.matchOk = true ∧ env.scanOk = false)) →
      available_ports env = (.error udevError, []) ∧ udevError.kind = .Unknown) ∧
    (∀ env : UdevEnv, env.ctxOk = false → available_ports env = (.ok [], [])) := by
  refine ⟨?_, ?_, ?_, ?_, ?_⟩
  · intro env h1 h2 h3 h4
    simp [available_ports, h1, h2, h3, h4]
  · intro d e hpt
    cases hp : d.hasParent <;> cases hn : d.devnode <;> cases hr : d.driver <;>
      simp [scanDevice, hp, hn, hr, hpt]
  · intro xs ys d hnone
    rw [collectPorts_append, collectPorts_append]
    congr 1
    simp [collectPorts, hnone]
  · intro env h1 hcase
    rcases hcase with h2 | ⟨h2, h3⟩ | ⟨h2, h3, h4⟩
    · exact ⟨by simp [available_ports, h1, h2], rfl⟩
    · exact ⟨by simp [available_ports, h1, h2, h3], rfl⟩
    · exact ⟨by simp [available_ports, h1, h2, h3, h4], rfl⟩
  · intro env h1
    simp [available_ports, h1]

/-- Witness for the amended C8: in the all-successful environment the USB
device with a malformed vendor-id property is omitted while the healthy
device is returned. -/
theorem enumeration_partial_failure_witness :
    available_ports envScanOk = (.ok (collectPorts envScanOk.devices), openAttempts envScanOk.devices) ∧
    (scanDevice badUsbDevice).1 = none ∧
    collectPorts envScanOk.devices = [⟨"/dev/ttyACM1", .Unknown⟩] :=
  ⟨enumeration_partial_failure.1 envScanOk rfl rfl rfl rfl,
   enumeration_partial_failure.2.1 badUsbDevice ⟨.Unknown, "value not hex string"⟩ rfl,
   rfl⟩

end SerialPort
